import Mathlib

/-!
Verification development for the jhunt refresh-and-score pipeline.

The definitions below are a shallow embedding of the Python sources:
  - backend/scorer/signals.py, backend/scorer/extractor.py, backend/scorer/engine.py
  - backend/database.py
  - backend/scraper/runner.py
Text is modelled as Lean String (sequences of characters); Python substring
search, slicing and lowercase folding are modelled over the underlying
character lists.  SQLite rows are modelled as Lean structures and tables as
lists of rows; CURRENT_TIMESTAMP is modelled by a clock field of the state.
Arithmetic in the scoring engine (Python int/float) is modelled exactly over
the rationals, with Python int() truncation toward zero made explicit.
-/

namespace JobMatcher

/-! ## Text primitives (Python str operations used by the extractor) -/

/-- Python str.lower, character by character. -/
def lowerStr (s : String) : String := String.mk (s.data.map Char.toLower)

/-- Python str.find: index of the first occurrence of pat in text, if any. -/
def findSub (text pat : List Char) : Option Nat :=
  (List.range (text.length + 1)).find? (fun i => pat.isPrefixOf (text.drop i))

/-- Python membership test pat in text. -/
def containsSub (text pat : String) : Bool := (findSub text.data pat.data).isSome

/-- Python str.strip: drop leading and trailing whitespace. -/
def pyStrip (s : List Char) : List Char :=
  ((s.dropWhile Char.isWhitespace).reverse.dropWhile Char.isWhitespace).reverse

/-! ## Signal dataclasses (backend/scorer/signals.py) -/

structure SenioritySignal where
  level : String
  score : Nat
deriving DecidableEq

structure PnLSignal where
  score : Nat
  evidence : Option String
deriving DecidableEq

structure TransformationSignal where
  score : Nat
  evidence : Option String
deriving DecidableEq

structure IndustrySignal where
  score : Nat
  evidence : Option String
deriving DecidableEq

structure GeoSignal where
  score : Nat
  is_banned : Bool
  evidence : Option String
deriving DecidableEq

/-! ## Configuration (backend/config.py) -/

structure GeographyConfig where
  preferred : List String
  banned : List String
deriving DecidableEq

structure ScoringWeights where
  seniority : Int := 30
  pnl : Int := 20
  transformation : Int := 20
  industry : Int := 20
  geo : Int := 10
  banned_penalty : Int := 10
deriving DecidableEq

/-- The default weights of config.py ScoringWeights. -/
def defaultWeights : ScoringWeights := {}

/-! ## Signal extractor (backend/scorer/extractor.py) -/

/-- SignalExtractor.extract_seniority: ordered tier match on the lowered title. -/
def extract_seniority (title : String) : SenioritySignal :=
  let title_lower := lowerStr title
  if ["vp", "vice president"].any (fun kw => containsSub title_lower kw) then
    { level := "VP", score := 30 }
  else if ["senior director", "sr director", "sr. director"].any
      (fun kw => containsSub title_lower kw) then
    { level := "Senior Director", score := 25 }
  else if containsSub title_lower "director" then
    { level := "Director", score := 20 }
  else
    { level := "Other", score := 0 }

/-- SignalExtractor._extract_evidence: snippet of text around the first keyword
that occurs (case-insensitively) in text, window characters of context on each
side, ellipsis-marked when truncated. -/
def extract_evidence (text : String) (keywords : List String) (window : Nat) :
    Option String :=
  match keywords with
  | [] => none
  | kw :: rest =>
    match findSub (lowerStr text).data (lowerStr kw).data with
    | some idx =>
      let start := idx - window
      let stop := min (idx + kw.data.length + window) text.data.length
      let snippet := pyStrip ((text.data.drop start).take (stop - start))
      let snippet := if 0 < start then "...".data ++ snippet else snippet
      let snippet := if stop < text.data.length then snippet ++ "...".data else snippet
      some (String.mk snippet)
    | none => extract_evidence text rest window

def strong_pnl_keywords : List String :=
  ["p&l", "p & l", "profit and loss", "profitability", "ebitda",
   "budget control", "cost reduction", "financial accountability"]

def medium_pnl_keywords : List String :=
  ["commercial growth", "revenue targets", "portfolio margin",
   "revenue growth", "business results", "financial performance"]

/-- SignalExtractor.extract_pnl_signals. -/
def extract_pnl_signals (description : String) : PnLSignal :=
  let desc_lower := lowerStr description
  if strong_pnl_keywords.any (fun kw => containsSub desc_lower kw) then
    { score := 20, evidence := extract_evidence description strong_pnl_keywords 80 }
  else if medium_pnl_keywords.any (fun kw => containsSub desc_lower kw) then
    { score := 15, evidence := extract_evidence description medium_pnl_keywords 80 }
  else
    { score := 0, evidence := none }

def transformation_keywords : List String :=
  ["digital transformation", "erp modernization", "erp implementation",
   "post-acquisition integration", "post acquisition integration",
   "operational transformation", "technology roadmap",
   "business transformation", "modernization", "digitalization",
   "system integration"]

/-- SignalExtractor.extract_transformation_signals. -/
def extract_transformation_signals (description : String) : TransformationSignal :=
  let desc_lower := lowerStr description
  if transformation_keywords.any (fun kw => containsSub desc_lower kw) then
    { score := 20, evidence := extract_evidence description transformation_keywords 80 }
  else
    { score := 0, evidence := none }

def strong_industry_keywords : List String :=
  ["industrial iot", "iiot", "factory automation", "manufacturing automation",
   "electrification", "ev batteries", "battery", "energy systems",
   "energy storage", "regulated environments", "regulated industry",
   "industry 4.0", "smart manufacturing", "industrial ai",
   "predictive maintenance", "scada", "plc", "mes"]

def adjacent_industry_keywords : List String :=
  ["enterprise software", "saas platform", "cloud infrastructure",
   "data analytics", "machine learning", "artificial intelligence"]

/-- SignalExtractor.extract_industry_signals. -/
def extract_industry_signals (description : String) : IndustrySignal :=
  let desc_lower := lowerStr description
  if strong_industry_keywords.any (fun kw => containsSub desc_lower kw) then
    { score := 20, evidence := extract_evidence description strong_industry_keywords 80 }
  else if adjacent_industry_keywords.any (fun kw => containsSub desc_lower kw) then
    { score := 10, evidence := extract_evidence description adjacent_industry_keywords 80 }
  else
    { score := 0, evidence := none }

/-- Evidence for one matched geography: the description window around the
match, falling back to the raw location when the description yields nothing
(Python: if not evidence: evidence = f-string Location). -/
def geoEvidence (description location : String) (geo : String) : String :=
  match extract_evidence description [geo] 80 with
  | some e => if e.data.isEmpty then "Location: " ++ location else e
  | none => "Location: " ++ location

/-- The text scanned by extract_geo_signals: lowered description and lowered
location joined by one space. -/
def geoCombined (description location : String) : String :=
  lowerStr description ++ " " ++ lowerStr location

/-- A for/break scan of one configured geography list: the first entry whose
lowered text occurs in the combined description and location. -/
def geoHit (l : List String) (description location : String) : Option String :=
  l.find? (fun g => containsSub (geoCombined description location) (lowerStr g))

/-- SignalExtractor.extract_geo_signals: first preferred match sets score 10;
an independent scan of the banned list sets the banned flag and overwrites the
evidence.  The Python for/break loops are first-match searches. -/
def extract_geo_signals (cfg : GeographyConfig) (description location : String) :
    GeoSignal :=
  let prefHit := geoHit cfg.preferred description location
  let score : Nat := if prefHit.isSome then 10 else 0
  let prefEvidence : Option String := prefHit.map (geoEvidence description location)
  match geoHit cfg.banned description location with
  | some g => { score := score, is_banned := true,
                evidence := some (geoEvidence description location g) }
  | none => { score := score, is_banned := false, evidence := prefEvidence }

/-! ## Scoring engine (backend/scorer/engine.py) -/

structure JobContent where
  id : Nat
  title : String
  location : String
  description : String
  company_name : String
  partial_description : Bool
deriving DecidableEq

structure Evaluation where
  job_id : Nat
  fit_score : Int
  seniority_score : Nat
  pnl_score : Nat
  transformation_score : Nat
  industry_score : Nat
  geo_score : Nat
  action : String
  summary : String
  concerns : List (String × String)
deriving DecidableEq

/-- Python int(): truncation of a rational toward zero. -/
def pyTrunc (q : Rat) : Int := Int.tdiv q.num q.den

/-- ScoringEngine._determine_action. -/
def determine_action (score : Int) : String :=
  if 75 ≤ score then "APPLY"
  else if 60 ≤ score then "WATCH"
  else "SKIP"

/-- Python x or y on an optional string: y when x is None or empty. -/
def orElseStr (o : Option String) (d : String) : String :=
  match o with
  | some e => if e.data.isEmpty then d else e
  | none => d

/-- ScoringEngine._generate_concerns. -/
def generate_concerns (job : JobContent) (sen : SenioritySignal) (pnl : PnLSignal)
    (tr : TransformationSignal) (ind : IndustrySignal) (geo : GeoSignal) :
    List (String × String) :=
  (if sen.score < 20 then
     [("Below target seniority", "Title: " ++ job.title)] else []) ++
  (if pnl.score = 0 then
     [("No P&L ownership", "No mention of P&L, profitability, or budget control")]
   else []) ++
  (if tr.score = 0 then
     [("No transformation mandate", "No mention of digital transformation or modernization")]
   else []) ++
  (if ind.score < 10 then
     [("No industry match", "No mention of industrial IoT, manufacturing, or hardware")]
   else []) ++
  (if geo.is_banned then
     [("Banned geography", orElseStr geo.evidence ("Location: " ++ job.location))]
   else []) ++
  (if job.partial_description then
     [("Incomplete description", "Full job description text not available")]
   else [])

/-- ScoringEngine._generate_summary. -/
def generate_summary (job : JobContent) (sen : SenioritySignal) (pnl : PnLSignal)
    (tr : TransformationSignal) (ind : IndustrySignal) (geo : GeoSignal)
    (action : String) (score : Int) : String :=
  let strengths :=
    (if 15 ≤ pnl.score then ["P&L ownership"] else []) ++
    (if 20 ≤ tr.score then ["transformation mandate"] else []) ++
    (if 20 ≤ ind.score then ["industry match"] else []) ++
    (if 10 ≤ geo.score then ["geographic scope"] else []) ++
    (if 25 ≤ sen.score then ["senior level"] else [])
  let top_strengths :=
    if strengths.isEmpty then "none" else String.intercalate ", " (strengths.take 2)
  let top_concern :=
    if sen.score < 20 then "below target seniority"
    else if pnl.score = 0 then "no P&L ownership"
    else if tr.score = 0 then "no transformation mandate"
    else if ind.score < 10 then "no industry match"
    else if geo.is_banned then "banned geography"
    else "none"
  "Role: " ++ job.title ++ " at " ++ job.company_name ++ " in " ++ job.location ++
    ". Fit: " ++ top_strengths ++ ". Gap: " ++ top_concern ++
    ". Action: " ++ action ++ ". Score: " ++ toString score ++ "."

/-- The aggregation step of ScoringEngine.score_job: normalize each raw signal
score by its maximum (30, 20, 20, 20, 10), scale by the configured weight,
sum, subtract the banned penalty when the geography signal is banned, truncate
to an integer and clamp to 0..100. -/
def aggregate_score (weights : ScoringWeights)
    (sen pnl tr ind geo : Nat) (banned : Bool) : Int :=
  let total : Rat :=
    ((sen : Rat) / 30) * (weights.seniority : Rat) +
    ((pnl : Rat) / 20) * (weights.pnl : Rat) +
    ((tr : Rat) / 20) * (weights.transformation : Rat) +
    ((ind : Rat) / 20) * (weights.industry : Rat) +
    ((geo : Rat) / 10) * (weights.geo : Rat)
  let total := if banned then total - (weights.banned_penalty : Rat) else total
  max 0 (min 100 (pyTrunc total))

/-- ScoringEngine.score_job: extract the five signals, aggregate them with the
configured weights, then derive action, concerns and summary. -/
def score_job (weights : ScoringWeights) (geocfg : GeographyConfig)
    (job : JobContent) : Evaluation :=
  let seniority := extract_seniority job.title
  let pnl := extract_pnl_signals job.description
  let transformation := extract_transformation_signals job.description
  let industry := extract_industry_signals job.description
  let geo := extract_geo_signals geocfg job.description job.location
  let fit := aggregate_score weights seniority.score pnl.score
    transformation.score industry.score geo.score geo.is_banned
  let action := determine_action fit
  let concerns := generate_concerns job seniority pnl transformation industry geo
  let summary := generate_summary job seniority pnl transformation industry geo action fit
  { job_id := job.id, fit_score := fit, seniority_score := seniority.score,
    pnl_score := pnl.score, transformation_score := transformation.score,
    industry_score := industry.score, geo_score := geo.score,
    action := action, summary := summary, concerns := concerns }

/-! ## Persistence store (backend/database.py) -/

structure RawJobPosting where
  external_id : String
  title : String
  location : String
  description : String
  url : String
  partial_description : Bool
  department : Option String
deriving DecidableEq

structure CompanyRow where
  id : Nat
  name : String
  careers_url : String
  adapter : String
  adapter_status : String
  error_message : Option String
  last_successful_fetch : Option Nat
deriving DecidableEq

structure JobRow where
  id : Nat
  external_id : String
  company_id : Nat
  title : String
  location : String
  department : Option String
  description : String
  url : String
  partial_description : Bool
  active : Bool
  date_found : Nat
  last_seen_at : Nat
  user_review_status : String
deriving DecidableEq

structure EvalRow where
  id : Nat
  job_id : Nat
  created_at : Nat
  fit_score : Int
  seniority_score : Nat
  pnl_score : Nat
  transformation_score : Nat
  industry_score : Nat
  geo_score : Nat
  action : String
  summary : String
  concerns : List (String × String)
deriving DecidableEq

/-- The SQLite database: one list of rows per table, fresh rowids for the two
autoincrement tables, and a clock supplying CURRENT_TIMESTAMP. -/
structure DBState where
  companies : List CompanyRow
  jobs : List JobRow
  evals : List EvalRow
  nextJobId : Nat
  nextEvalId : Nat
  now : Nat
deriving DecidableEq

/-- Database.update_company_status: set adapter_status and error_message of the
addressed company; the CASE expression refreshes last_successful_fetch only
when the recorded status is the literal OK. -/
def update_company_status (company_id : Nat) (status : String)
    (error : Option String) (st : DBState) : DBState :=
  { st with companies := st.companies.map (fun c =>
      if c.id = company_id then
        { c with adapter_status := status, error_message := error,
                 last_successful_fetch :=
                   if status = "OK" then some st.now else c.last_successful_fetch }
      else c) }

/-- The SELECT of Database.upsert_job_posting: first row of job_postings with
this (company_id, external_id). -/
def findPosting (company_id : Nat) (external_id : String) (st : DBState) :
    Option JobRow :=
  st.jobs.find? (fun j => j.company_id == company_id && j.external_id == external_id)

/-- The UPDATE branch of Database.upsert_job_posting applied to one row:
overwrite the content columns, refresh last_seen_at, force active; columns not
listed (user_review_status, date_found, external_id, company_id) keep their
per-row values. -/
def updatedRow (raw : RawJobPosting) (now : Nat) (r : JobRow) : JobRow :=
  { r with title := raw.title, location := raw.location,
           department := raw.department, description := raw.description,
           url := raw.url, last_seen_at := now, active := true,
           partial_description := raw.partial_description }

/-- Modelled from the spec: schema.sql is not under src/, so the column
defaults used by the INSERT branch of upsert_job_posting come from the spec
(section 4.2): insert with active true, review status NEW, first-seen and
last-seen timestamps both CURRENT_TIMESTAMP. -/
def newJobRow (company_id : Nat) (raw : RawJobPosting) (st : DBState) : JobRow :=
  { id := st.nextJobId, external_id := raw.external_id, company_id := company_id,
    title := raw.title, location := raw.location, department := raw.department,
    description := raw.description, url := raw.url,
    partial_description := raw.partial_description, active := true,
    date_found := st.now, last_seen_at := st.now, user_review_status := "NEW" }

/-- Database.upsert_job_posting: returns ((job_id, is_new), new state).  Each
call ends with conn.commit(), so the returned state is durable on its own. -/
def upsert_job_posting (company_id : Nat) (raw : RawJobPosting) (st : DBState) :
    (Nat × Bool) × DBState :=
  match findPosting company_id raw.external_id st with
  | some existing =>
    ((existing.id, false),
     { st with jobs := st.jobs.map (fun r =>
         if r.id = existing.id then updatedRow raw st.now r else r) })
  | none =>
    ((st.nextJobId, true),
     { st with jobs := st.jobs ++ [newJobRow company_id raw st],
               nextJobId := st.nextJobId + 1 })

/-- One chunked UPDATE of Database.mark_missing_jobs_inactive: deactivate every
still-active posting of the company whose external_id is NOT IN this chunk. -/
def deactivateNotInChunk (company_id : Nat) (chunk : List String)
    (jobs : List JobRow) : List JobRow :=
  jobs.map (fun j =>
    if j.company_id = company_id ∧ j.external_id ∉ chunk ∧ j.active = true then
      { j with active := false }
    else j)

/-- Structural worker for chunksOf900: the fuel bounds the number of chunks
and is always at least the list length at the call site. -/
def chunksOf900Go : Nat → List String → List (List String)
  | _, [] => []
  | 0, _ :: _ => []
  | fuel + 1, x :: xs => ((x :: xs).take 900) :: chunksOf900Go fuel ((x :: xs).drop 900)

/-- The slices seen[i:i+900] of the chunk loop in mark_missing_jobs_inactive. -/
def chunksOf900 (l : List String) : List (List String) :=
  chunksOf900Go l.length l

/-- Database.mark_missing_jobs_inactive: with an empty seen list, deactivate
every active posting of the company; otherwise run one UPDATE per 900-id chunk
of the seen list. -/
def mark_missing_jobs_inactive (company_id : Nat) (seen_external_ids : List String)
    (st : DBState) : DBState :=
  if seen_external_ids.isEmpty then
    { st with jobs := st.jobs.map (fun j =>
        if j.company_id = company_id ∧ j.active = true then
          { j with active := false }
        else j) }
  else
    let js := (chunksOf900 seen_external_ids).foldl
      (fun js chunk => deactivateNotInChunk company_id chunk js) st.jobs
    { st with jobs := js }

/-- The row inserted by Database.insert_evaluation. -/
def newEvalRow (e : Evaluation) (st : DBState) : EvalRow :=
  { id := st.nextEvalId, job_id := e.job_id, created_at := st.now,
    fit_score := e.fit_score, seniority_score := e.seniority_score,
    pnl_score := e.pnl_score, transformation_score := e.transformation_score,
    industry_score := e.industry_score, geo_score := e.geo_score,
    action := e.action, summary := e.summary, concerns := e.concerns }

/-- Descending creation-time order used by the pruning subquery
(ORDER BY created_at DESC). -/
def createdDesc (a b : EvalRow) : Prop := b.created_at ≤ a.created_at

instance : DecidableRel createdDesc := fun a b => Nat.decLe _ _

instance : IsTotal EvalRow createdDesc :=
  ⟨fun a b => Or.symm (Nat.le_total a.created_at b.created_at)⟩

instance : IsTrans EvalRow createdDesc :=
  ⟨fun _ _ _ hab hbc => Nat.le_trans hbc hab⟩

/-- Database.insert_evaluation: append the new row, then DELETE every row of
this job whose id is not among the ids of the 3 most recent rows
(ORDER BY created_at DESC LIMIT 3). -/
def insert_evaluation (e : Evaluation) (st : DBState) : DBState :=
  let inserted := st.evals ++ [newEvalRow e st]
  let rowsForJob := inserted.filter (fun r => r.job_id == e.job_id)
  let keepIds := ((rowsForJob.insertionSort createdDesc).take 3).map EvalRow.id
  { st with
      evals := inserted.filter (fun r => r.job_id != e.job_id || keepIds.contains r.id),
      nextEvalId := st.nextEvalId + 1 }

/-- Rows of the evaluations table belonging to one job. -/
def evalsFor (job_id : Nat) (st : DBState) : List EvalRow :=
  st.evals.filter (fun r => r.job_id == job_id)

/-! ## Refresh orchestrator (backend/scraper/runner.py) -/

structure CompanyConfig where
  name : String
  careers_url : String
  adapter : String
deriving DecidableEq

structure CompanyResult where
  company_id : Option Nat
  company_name : String
  status : String
  error_message : Option String
  new_count : Nat
  updated_count : Nat
  touched_job_ids : List Nat
deriving DecidableEq

structure RefreshResult where
  company_results : List CompanyResult
  touched_job_ids : List Nat
deriving DecidableEq

/-- Accumulator of the per-company upsert loop in ScraperRunner._refresh_company. -/
structure CompanyRefreshAcc where
  touched : List Nat
  new_count : Nat
  updated_count : Nat
  seen : List String
  state : DBState
deriving DecidableEq

/-- The upsert loop of ScraperRunner._refresh_company: upsert each fetched
posting in order, recording the touched id, the new/updated counters and the
seen external id. -/
def upsertLoop (company_id : Nat) (raws : List RawJobPosting) (st : DBState) :
    CompanyRefreshAcc :=
  raws.foldl (fun acc raw =>
    let res := upsert_job_posting company_id raw acc.state
    { touched := acc.touched ++ [res.1.1],
      new_count := acc.new_count + (if res.1.2 then 1 else 0),
      updated_count := acc.updated_count + (if res.1.2 then 0 else 1),
      seen := acc.seen ++ [raw.external_id],
      state := res.2 })
    { touched := [], new_count := 0, updated_count := 0, seen := [], state := st }

/-- The database part of one company refresh cycle
(ScraperRunner._refresh_company): upsert every fetched posting, then mark the
missing ones inactive. -/
def refresh_company_db (company_id : Nat) (raws : List RawJobPosting)
    (st : DBState) : CompanyRefreshAcc :=
  let acc := upsertLoop company_id raws st
  { acc with state := mark_missing_jobs_inactive company_id acc.seen acc.state }

/-- The durable database state after the first k upserts of a cycle.  Although
the runner wraps the loop in Database.transaction (BEGIN / commit / rollback on
failure), upsert_job_posting itself ends with conn.commit(), which commits the
open transaction; so when step k+1 fails, the rollback cannot undo the first k
upserts and this state persists. -/
def committedAfterUpserts (company_id : Nat) (raws : List RawJobPosting)
    (k : Nat) (st : DBState) : DBState :=
  (upsertLoop company_id (raws.take k) st).state

/-- Outcome of one company future as observed by refresh_all: a normal result,
a timeout of future.result, or an exception escaping _refresh_company. -/
inductive CompanyOutcome where
  | ok (r : CompanyResult)
  | timeout
  | failed (msg : String)
deriving DecidableEq

/-- The per-future collection step of ScraperRunner.refresh_all: a successful
future contributes its result; a timeout or exception is caught and converted
to an ERROR record with zero counts and no touched ids. -/
def collectCompany (lookup : String → Option Nat) (name : String) :
    CompanyOutcome → CompanyResult
  | .ok r => r
  | .timeout =>
    { company_id := lookup name, company_name := name, status := "ERROR",
      error_message := some "Timeout", new_count := 0, updated_count := 0,
      touched_job_ids := [] }
  | .failed m =>
    { company_id := lookup name, company_name := name, status := "ERROR",
      error_message := some m, new_count := 0, updated_count := 0,
      touched_job_ids := [] }

/-- ScraperRunner.refresh_all: collect one result per configured company,
extending the flattened touched-id list with each collected result's touched
ids (empty for errors); lookup models Database.get_company_id_by_name. -/
def refresh_all (lookup : String → Option Nat) (companies : List CompanyConfig)
    (outcome : String → CompanyOutcome) : RefreshResult :=
  companies.foldl (fun acc c =>
    let r := collectCompany lookup c.name (outcome c.name)
    { company_results := acc.company_results ++ [r],
      touched_job_ids := acc.touched_job_ids ++ r.touched_job_ids })
    { company_results := [], touched_job_ids := [] }

/-- Scoring input of a stored posting as read back by get_jobs_by_ids
(row columns plus the joined company name). -/
def jobContentOf (r : JobRow) (company_name : String) : JobContent :=
  { id := r.id, title := r.title, location := r.location,
    description := r.description, company_name := company_name,
    partial_description := r.partial_description }

/-! ## Specification-side definitions and concrete fixtures -/

/-- The aggregate-score formula exactly as the specification words it: for each
of the five signals, the raw score divided by its maximum (30 for seniority,
20 for P&L, 20 for transformation, 20 for industry, 10 for geography) times
the corresponding configured weight, summed; minus the configured banned
penalty when the geography signal is banned; truncated to an integer and
clamped to the closed range 0..100. -/
def spec_fit_score (weights : ScoringWeights)
    (sen pnl tr ind geo : Nat) (banned : Bool) : Int :=
  let total : Rat :=
    ((sen : Rat) / 30) * (weights.seniority : Rat) +
    ((pnl : Rat) / 20) * (weights.pnl : Rat) +
    ((tr : Rat) / 20) * (weights.transformation : Rat) +
    ((ind : Rat) / 20) * (weights.industry : Rat) +
    ((geo : Rat) / 10) * (weights.geo : Rat)
  let total := if banned then total - (weights.banned_penalty : Rat) else total
  max 0 (min 100 (pyTrunc total))

/-- Geography configuration of the worked banned-location example. -/
def exampleGeoCfg : GeographyConfig := { preferred := ["germany"], banned := ["russia"] }

/-- A posting whose five signals are all at maximum and whose location is a
banned geography. -/
def examplePerfectBannedJob : JobContent :=
  { id := 7, title := "VP of Operations", location := "Moscow, Russia",
    description := "p&l digital transformation industrial iot germany",
    company_name := "Siemens", partial_description := false }

/-! ## Claim theorems -/

/-- C5: the aggregate fit score is the sum over the five signals of raw score
over maximum times configured weight, minus the banned penalty when the
geography signal is banned, truncated to an integer and clamped to 0..100; and
with default weights a posting with all five signals at maximum and a banned
location scores exactly 90, is labeled APPLY, and carries a Banned geography
concern. -/
theorem score_job_aggregation :
    (∀ (weights : ScoringWeights) (geocfg : GeographyConfig) (job : JobContent),
      (score_job weights geocfg job).fit_score =
        spec_fit_score weights
          (extract_seniority job.title).score
          (extract_pnl_signals job.description).score
          (extract_transformation_signals job.description).score
          (extract_industry_signals job.description).score
          (extract_geo_signals geocfg job.description job.location).score
          (extract_geo_signals geocfg job.description job.location).is_banned) ∧
    (score_job defaultWeights exampleGeoCfg examplePerfectBannedJob).fit_score = 90 ∧
    (score_job defaultWeights exampleGeoCfg examplePerfectBannedJob).action = "APPLY" ∧
    (score_job defaultWeights exampleGeoCfg examplePerfectBannedJob).concerns.map
      Prod.fst = ["Banned geography"] := by
  have hagg : aggregate_score defaultWeights 30 20 20 20 10 true = 90 := by
    have h : ((30 : Nat) : Rat) / 30 * ((30 : Int) : Rat) +
        ((20 : Nat) : Rat) / 20 * ((20 : Int) : Rat) +
        ((20 : Nat) : Rat) / 20 * ((20 : Int) : Rat) +
        ((20 : Nat) : Rat) / 20 * ((20 : Int) : Rat) +
        ((10 : Nat) : Rat) / 10 * ((10 : Int) : Rat) - ((10 : Int) : Rat) = (90 : Rat) := by
      norm_num
    simp only [aggregate_score, defaultWeights]
    norm_num [h]
    rfl
  have hsen : extract_seniority examplePerfectBannedJob.title =
      { level := "VP", score := 30 } := by decide
  have hpnl : extract_pnl_signals examplePerfectBannedJob.description =
      { score := 20, evidence := some examplePerfectBannedJob.description } := by decide
  have htr : extract_transformation_signals examplePerfectBannedJob.description =
      { score := 20, evidence := some examplePerfectBannedJob.description } := by decide
  have hind : extract_industry_signals examplePerfectBannedJob.description =
      { score := 20, evidence := some examplePerfectBannedJob.description } := by decide
  have hgeo : extract_geo_signals exampleGeoCfg examplePerfectBannedJob.description
      examplePerfectBannedJob.location =
      { score := 10, is_banned := true,
        evidence := some ("Location: " ++ examplePerfectBannedJob.location) } := by decide
  refine ⟨fun weights geocfg job => rfl, ?_, ?_, ?_⟩ <;>
    simp only [score_job, hsen, hpnl, htr, hind, hgeo, hagg] <;> decide

/-- C6: the action label is APPLY exactly when the fit score is at least 75,
WATCH exactly when it is at least 60 and below 75, and SKIP exactly when it is
below 60; in particular 75 maps to APPLY, 74 and 60 to WATCH, 59 to SKIP. -/
theorem determine_action_thresholds :
    (∀ s : Int,
      (determine_action s = "APPLY" ↔ 75 ≤ s) ∧
      (determine_action s = "WATCH" ↔ 60 ≤ s ∧ s < 75) ∧
      (determine_action s = "SKIP" ↔ s < 60)) ∧
    determine_action 75 = "APPLY" ∧ determine_action 74 = "WATCH" ∧
    determine_action 60 = "WATCH" ∧ determine_action 59 = "SKIP" := by
  have hAW : ("APPLY" : String) ≠ "WATCH" := by decide
  have hAS : ("APPLY" : String) ≠ "SKIP" := by decide
  have hWA : ("WATCH" : String) ≠ "APPLY" := by decide
  have hWS : ("WATCH" : String) ≠ "SKIP" := by decide
  have hSA : ("SKIP" : String) ≠ "APPLY" := by decide
  have hSW : ("SKIP" : String) ≠ "WATCH" := by decide
  refine ⟨fun s => ?_, by decide, by decide, by decide, by decide⟩
  unfold determine_action
  split_ifs with h1 h2 <;>
    refine ⟨⟨fun he => ?_, fun hs => ?_⟩, ⟨fun he => ?_, fun hs => ?_⟩,
      ⟨fun he => ?_, fun hs => ?_⟩⟩ <;>
    first
      | rfl
      | omega
      | (exact absurd he (by assumption))

/-- C8: when both a preferred and a banned geography match, the score stays 10
(the preferred score is retained), the banned flag is set, and the evidence is
the banned-geography evidence, overwriting the preferred evidence; absent any
banned match, a preferred match yields score 10 with evidence from the
description window, falling back to the raw location when the description has
no match. -/
theorem extract_geo_banned_precedence (cfg : GeographyConfig)
    (description location : String) :
    (∀ gb, geoHit cfg.banned description location = some gb →
      (extract_geo_signals cfg description location).is_banned = true ∧
      (extract_geo_signals cfg description location).evidence =
        some (geoEvidence description location gb) ∧
      ((geoHit cfg.preferred description location).isSome = true →
        (extract_geo_signals cfg description location).score = 10)) ∧
    (geoHit cfg.banned description location = none →
      (extract_geo_signals cfg description location).is_banned = false ∧
      ∀ gp, geoHit cfg.preferred description location = some gp →
        (extract_geo_signals cfg description location).score = 10 ∧
        (extract_geo_signals cfg description location).evidence =
          some (geoEvidence description location gp) ∧
        (extract_evidence description [gp] 80 = none →
          (extract_geo_signals cfg description location).evidence =
            some ("Location: " ++ location))) := by
  constructor
  · intro gb hgb
    refine ⟨by simp [extract_geo_signals, hgb], by simp [extract_geo_signals, hgb], ?_⟩
    intro hp
    simp [extract_geo_signals, hgb, hp]
  · intro hb
    refine ⟨by simp [extract_geo_signals, hb], ?_⟩
    intro gp hgp
    refine ⟨by simp [extract_geo_signals, hb, hgp], by simp [extract_geo_signals, hb, hgp], ?_⟩
    intro hev
    simp [extract_geo_signals, hb, hgp, geoEvidence, hev]

/-- Closed witness for the C8 theorem at a concrete configuration in which a
preferred and a banned geography both match. -/
theorem extract_geo_banned_precedence_witness :
    (extract_geo_signals exampleGeoCfg "open role in germany" "Moscow, Russia").is_banned
      = true ∧
    (extract_geo_signals exampleGeoCfg "open role in germany" "Moscow, Russia").evidence
      = some (geoEvidence "open role in germany" "Moscow, Russia" "russia") ∧
    (extract_geo_signals exampleGeoCfg "open role in germany" "Moscow, Russia").score
      = 10 := by
  have h := (extract_geo_banned_precedence exampleGeoCfg "open role in germany"
    "Moscow, Russia").1 "russia" (by decide)
  exact ⟨h.1, h.2.1, h.2.2 (by decide)⟩

/-- C10: recording a cycle outcome touches only the health-status columns of
the addressed company: adapter status and error message are set, the
last-successful-fetch timestamp is advanced exactly when the recorded status
is OK and kept otherwise, name, endpoint and adapter strategy are unchanged,
other companies are unchanged, and no posting or evaluation rows change. -/
theorem update_company_status_frame (st : DBState) (company_id : Nat)
    (status : String) (error : Option String) :
    (update_company_status company_id status error st).jobs = st.jobs ∧
    (update_company_status company_id status error st).evals = st.evals ∧
    List.Forall₂ (fun c d : CompanyRow =>
      d.id = c.id ∧ d.name = c.name ∧ d.careers_url = c.careers_url ∧
      d.adapter = c.adapter ∧
      (c.id = company_id →
        d.adapter_status = status ∧ d.error_message = error ∧
        d.last_successful_fetch =
          (if status = "OK" then some st.now else c.last_successful_fetch)) ∧
      (c.id ≠ company_id → d = c))
      st.companies (update_company_status company_id status error st).companies := by
  refine ⟨rfl, rfl, ?_⟩
  simp only [update_company_status]
  rw [List.forall₂_map_right_iff, List.forall₂_same]
  intro c _
  by_cases hc : c.id = company_id
  · simp [hc]
  · simp [hc]

/-- Conclusion of the C3 claim for one upsert of an already-present posting:
not counted as new, the existing row id is returned, and row by row the review
status is preserved while the addressed row gets the fetched content, a fresh
last-seen timestamp and active forced true. -/
def upsertKeepsReviewP (company_id : Nat) (raw : RawJobPosting) (st : DBState)
    (j : JobRow) : Prop :=
  (upsert_job_posting company_id raw st).1.2 = false ∧
  (upsert_job_posting company_id raw st).1.1 = j.id ∧
  List.Forall₂ (fun r d : JobRow =>
    d.user_review_status = r.user_review_status ∧
    d.id = r.id ∧ d.external_id = r.external_id ∧ d.company_id = r.company_id ∧
    d.date_found = r.date_found ∧
    (r.id = j.id →
      d.title = raw.title ∧ d.location = raw.location ∧
      d.department = raw.department ∧ d.description = raw.description ∧
      d.url = raw.url ∧ d.partial_description = raw.partial_description ∧
      d.last_seen_at = st.now ∧ d.active = true) ∧
    (r.id ≠ j.id → d = r))
    st.jobs (upsert_job_posting company_id raw st).2.jobs

/-- C3: re-observing an existing posting overwrites title, location,
department, description, URL and the partial flag, refreshes last-seen, forces
active, and leaves the user review status of every row untouched, whatever its
value was. -/
theorem upsert_preserves_review_status (company_id : Nat) (raw : RawJobPosting)
    (st : DBState) (j : JobRow)
    (hfind : findPosting company_id raw.external_id st = some j) :
    upsertKeepsReviewP company_id raw st j := by
  unfold upsertKeepsReviewP
  simp only [upsert_job_posting, hfind]
  refine ⟨trivial, trivial, ?_⟩
  rw [List.forall₂_map_right_iff, List.forall₂_same]
  intro r _
  by_cases hr : r.id = j.id
  · simp [hr, updatedRow]
  · simp [hr]

/-- A fetched posting re-observing the stored row of fixtureSt. -/
def fixtureRaw : RawJobPosting :=
  { external_id := "e1", title := "Director of Platform", location := "Berlin",
    description := "modernization and p&l", url := "https://x/1",
    partial_description := false, department := some "Ops" }

/-- A stored posting with user-owned review status READ and stale content. -/
def fixtureRow : JobRow :=
  { id := 3, external_id := "e1", company_id := 1, title := "Old Title",
    location := "Old City", department := none, description := "old",
    url := "https://x/old", partial_description := true, active := false,
    date_found := 5, last_seen_at := 5, user_review_status := "READ" }

/-- A one-company, one-posting database state. -/
def fixtureSt : DBState :=
  { companies := [{ id := 1, name := "Siemens", careers_url := "https://x",
                    adapter := "siemens", adapter_status := "OK",
                    error_message := none, last_successful_fetch := some 5 }],
    jobs := [fixtureRow], evals := [], nextJobId := 4, nextEvalId := 1, now := 9 }

/-- Closed witness for the C3 theorem on the concrete fixture state. -/
theorem upsert_preserves_review_status_witness :
    findPosting 1 fixtureRaw.external_id fixtureSt = some fixtureRow ∧
    upsertKeepsReviewP 1 fixtureRaw fixtureSt fixtureRow :=
  ⟨by decide, upsert_preserves_review_status 1 fixtureRaw fixtureSt fixtureRow (by decide)⟩

/-- Conclusion of the C4 claim, pinning the survivors down to the 3 most
recently created rows: after insert_evaluation the posting keeps exactly
min 3 n of its n post-insert evaluation rows (so nothing is over-pruned);
every surviving row is one of the post-insert rows; every pruned row of the
posting was created no later than every surviving row (so the kept set is a
maximal-by-creation-time selection, ties being arbitrary exactly as in the
SQL ORDER BY); and whenever the stored rows are strictly older than the clock,
the freshly inserted row itself is among the survivors. -/
def retentionP (e : Evaluation) (st : DBState) : Prop :=
  (evalsFor e.job_id (insert_evaluation e st)).length =
    min 3 ((st.evals ++ [newEvalRow e st]).filter
      (fun r => r.job_id == e.job_id)).length ∧
  (∀ r ∈ evalsFor e.job_id (insert_evaluation e st),
    r ∈ st.evals ++ [newEvalRow e st]) ∧
  (∀ r ∈ evalsFor e.job_id (insert_evaluation e st),
    ∀ d ∈ st.evals ++ [newEvalRow e st], d.job_id = e.job_id →
      d ∉ (insert_evaluation e st).evals → d.created_at ≤ r.created_at) ∧
  ((∀ r ∈ st.evals, r.created_at < st.now) →
    newEvalRow e st ∈ evalsFor e.job_id (insert_evaluation e st))

/-- C4: after insert_evaluation runs (insert the new row, then prune), the
posting keeps exactly the 3 most recently created of its evaluation rows (all
of them when it has fewer than 3): the survivor count is exactly min 3 n,
survivors are post-insert rows, every pruned row is no newer than any survivor
(pruning removes oldest-first by creation time), and the just-inserted row
survives whenever stored timestamps are strictly below the current one.  The
well-formedness hypotheses say that evaluation rowids are distinct and below
the next fresh rowid, as SQLite autoincrement guarantees. -/
theorem insert_evaluation_retention (e : Evaluation) (st : DBState)
    (hnodup : (st.evals.map EvalRow.id).Nodup)
    (hfresh : ∀ r ∈ st.evals, r.id < st.nextEvalId) :
    retentionP e st := by
  classical
  unfold retentionP
  set newR := newEvalRow e st with hnewR
  set inserted := st.evals ++ [newR] with hins
  set rows := inserted.filter (fun r => r.job_id == e.job_id) with hrows
  set sorted := rows.insertionSort createdDesc with hsorted
  set keepIds := ((sorted.take 3).map EvalRow.id) with hkeep
  -- ids of inserted are nodup
  have hinsNodup : (inserted.map EvalRow.id).Nodup := by
    have hx : ∀ x ∈ st.evals, ¬x.id = newR.id := by
      intro r hr
      have := hfresh r hr
      simp only [hnewR, newEvalRow]
      omega
    simpa [hins, List.nodup_append, hnodup] using hx
  have hrowsSub : rows.Sublist inserted := List.filter_sublist inserted
  have hrowsNodup : (rows.map EvalRow.id).Nodup :=
    List.Nodup.sublist (hrowsSub.map EvalRow.id) hinsNodup
  have hperm : List.Perm sorted rows := List.perm_insertionSort createdDesc rows
  have hsortedNodup : (sorted.map EvalRow.id).Nodup :=
    ((hperm.map EvalRow.id).nodup_iff).mpr hrowsNodup
  -- the surviving rows of the job
  have hsurv : evalsFor e.job_id (insert_evaluation e st) =
      inserted.filter (fun r =>
        (r.job_id == e.job_id) && (r.job_id != e.job_id || keepIds.contains r.id)) := by
    simp only [evalsFor, insert_evaluation]
    rw [List.filter_filter]
  have hsurv2 : evalsFor e.job_id (insert_evaluation e st) =
      inserted.filter (fun r => (r.job_id == e.job_id) && keepIds.contains r.id) := by
    rw [hsurv]
    apply List.filter_congr
    intro r _
    by_cases h1 : r.job_id = e.job_id <;> by_cases h2 : r.id ∈ keepIds <;>
      simp [h1, h2]
  set survivors :=
    inserted.filter (fun r => (r.job_id == e.job_id) && keepIds.contains r.id)
    with hsurvdef
  have hpair : List.Pairwise createdDesc sorted :=
    List.sorted_insertionSort createdDesc rows
  have hsplit : ∀ x ∈ sorted.take 3, ∀ y ∈ sorted.drop 3, createdDesc x y := by
    have h := hpair
    rw [← List.take_append_drop 3 sorted] at h
    exact (List.pairwise_append.mp h).2.2
  -- every survivor is one of the top-3 rows of the creation-time sort
  have hsub_take : ∀ r ∈ survivors, r ∈ sorted.take 3 := by
    intro r hr
    rw [hsurvdef] at hr
    have hrIns := List.mem_of_mem_filter hr
    have hrP := List.of_mem_filter hr
    simp only [Bool.and_eq_true, beq_iff_eq] at hrP
    obtain ⟨hrj, hrk0⟩ := hrP
    have hrk : r.id ∈ keepIds := by simpa using hrk0
    rcases List.mem_map.mp hrk with ⟨r2, hr2, hr2id⟩
    have hr2rows : r2 ∈ rows := hperm.mem_iff.mp (List.mem_of_mem_take hr2)
    have hrrows : r ∈ rows := by
      rw [hrows]
      apply List.mem_filter.mpr
      exact ⟨hrIns, by simp [hrj]⟩
    have hr2eq : r2 = r :=
      List.inj_on_of_nodup_map hrowsNodup hr2rows hrrows hr2id
    rwa [hr2eq] at hr2
  -- every top-3 row of the creation-time sort survives
  have htake_sub : ∀ r ∈ sorted.take 3, r ∈ survivors := by
    intro r hr
    have hrrows : r ∈ rows := hperm.mem_iff.mp (List.mem_of_mem_take hr)
    have hrrows2 : r ∈ inserted.filter (fun r => r.job_id == e.job_id) := by
      rw [← hrows]
      exact hrrows
    have hrIns : r ∈ inserted := List.mem_of_mem_filter hrrows2
    have hrj : (r.job_id == e.job_id) = true := (List.mem_filter.mp hrrows2).2
    have hrid : r.id ∈ keepIds := by
      rw [hkeep]
      exact List.mem_map_of_mem EvalRow.id hr
    rw [hsurvdef]
    apply List.mem_filter.mpr
    refine ⟨hrIns, ?_⟩
    simp only [Bool.and_eq_true]
    exact ⟨hrj, by simpa using hrid⟩
  -- the survivors are a permutation of the top-3 rows
  have hsurvNodup : survivors.Nodup :=
    List.Nodup.of_map EvalRow.id
      (List.Nodup.sublist ((List.filter_sublist _).map EvalRow.id) hinsNodup)
  have hsortedRowsNodup : sorted.Nodup := List.Nodup.of_map EvalRow.id hsortedNodup
  have htakeNodup : (sorted.take 3).Nodup :=
    List.Nodup.sublist (List.take_sublist 3 sorted) hsortedRowsNodup
  have hperm23 : List.Perm survivors (sorted.take 3) :=
    List.Subperm.antisymm (List.subperm_of_subset hsurvNodup hsub_take)
      (List.subperm_of_subset htakeNodup htake_sub)
  refine ⟨?_, ?_, ?_, ?_⟩
  · -- exact survivor count: min 3 n
    rw [hsurv2, hperm23.length_eq, List.length_take, hperm.length_eq]
  · -- survivors come from the post-insert rows
    intro r hr
    rw [hsurv2] at hr
    rw [hsurvdef] at hr
    exact List.mem_of_mem_filter hr
  · -- minimality: every pruned row is no newer than any survivor
    intro r hr d hd hdj hdnot
    rw [hsurv2] at hr
    have hrtake : r ∈ sorted.take 3 := hsub_take r hr
    have hdrows : d ∈ rows := by
      rw [hrows]
      exact List.mem_filter.mpr ⟨hd, by simp [hdj]⟩
    have hdkeep : d.id ∉ keepIds := by
      intro hdk
      apply hdnot
      simp only [insert_evaluation]
      apply List.mem_filter.mpr
      refine ⟨hd, ?_⟩
      show (d.job_id != e.job_id || keepIds.contains d.id) = true
      simp only [Bool.or_eq_true]
      right
      simpa using hdk
    have hdsorted : d ∈ sorted := hperm.mem_iff.mpr hdrows
    have hdtail : d ∈ sorted.drop 3 := by
      rcases (List.mem_append.mp (by
        rw [← List.take_append_drop 3 sorted] at hdsorted
        exact hdsorted : d ∈ sorted.take 3 ++ sorted.drop 3)) with h | h
      · exact absurd (by rw [hkeep]; exact List.mem_map_of_mem EvalRow.id h) hdkeep
      · exact h
    exact hsplit r hrtake d hdtail
  · -- under a strictly monotone clock the fresh row is among the survivors
    intro hmono
    rw [hsurv2]
    have hnewRows : newR ∈ rows := by
      rw [hrows]
      apply List.mem_filter.mpr
      refine ⟨?_, ?_⟩
      · rw [hins]
        exact List.mem_append.mpr (Or.inr (by simp))
      · simp [hnewR, newEvalRow]
    have hnewSorted : newR ∈ sorted := hperm.mem_iff.mpr hnewRows
    by_cases hmem : newR ∈ sorted.take 3
    · exact htake_sub newR hmem
    · exfalso
      have hnewDrop : newR ∈ sorted.drop 3 := by
        rcases (List.mem_append.mp (by
          rw [← List.take_append_drop 3 sorted] at hnewSorted
          exact hnewSorted : newR ∈ sorted.take 3 ++ sorted.drop 3)) with h | h
        · exact absurd h hmem
        · exact h
      have htne : sorted.take 3 ≠ [] := by
        intro h0
        rcases List.take_eq_nil_iff.mp h0 with h | h
        · omega
        · exact (List.ne_nil_of_mem hnewSorted) h
      obtain ⟨x0, hx0⟩ := List.exists_mem_of_ne_nil _ htne
      have hrel : createdDesc x0 newR := hsplit x0 hx0 newR hnewDrop
      have hx0ne : x0 ≠ newR := fun he => hmem (he ▸ hx0)
      have hx0rows : x0 ∈ rows := hperm.mem_iff.mp (List.mem_of_mem_take hx0)
      have hx0old : x0 ∈ st.evals := by
        have hx0ins : x0 ∈ inserted := by
          have h := hx0rows
          rw [hrows] at h
          exact List.mem_of_mem_filter h
        have h := hx0ins
        rw [hins] at h
        rcases List.mem_append.mp h with h2 | h2
        · exact h2
        · exact absurd (by simpa using h2) hx0ne
      have hlt := hmono x0 hx0old
      have hge : st.now ≤ x0.created_at := by
        have h2 : newR.created_at = st.now := by simp [hnewR, newEvalRow]
        calc st.now = newR.created_at := h2.symm
          _ ≤ x0.created_at := hrel
      omega

/-- An evaluation about to be inserted for posting 1. -/
def fixtureEval : Evaluation :=
  { job_id := 1, fit_score := 50, seniority_score := 20, pnl_score := 0,
    transformation_score := 0, industry_score := 0, geo_score := 0,
    action := "SKIP", summary := "s", concerns := [] }

/-- A stored evaluation row for posting 1. -/
def fixtureEvalRow (i t : Nat) : EvalRow :=
  { id := i, job_id := 1, created_at := t, fit_score := 40,
    seniority_score := 20, pnl_score := 0, transformation_score := 0,
    industry_score := 0, geo_score := 0, action := "SKIP", summary := "s",
    concerns := [] }

/-- A database state already holding three evaluations for posting 1. -/
def fixtureEvalSt : DBState :=
  { companies := [], jobs := [],
    evals := [fixtureEvalRow 1 1, fixtureEvalRow 2 2, fixtureEvalRow 3 3],
    nextJobId := 1, nextEvalId := 4, now := 4 }

/-- Closed witness for the C4 theorem: a fourth insert on a posting that
already has three evaluations. -/
theorem insert_evaluation_retention_witness :
    (fixtureEvalSt.evals.map EvalRow.id).Nodup ∧
    (∀ r ∈ fixtureEvalSt.evals, r.id < fixtureEvalSt.nextEvalId) ∧
    retentionP fixtureEval fixtureEvalSt :=
  ⟨by decide, by decide,
   insert_evaluation_retention fixtureEval fixtureEvalSt (by decide) (by decide)⟩

/-- The chunk worker ignores the exact fuel as long as it dominates the list
length. -/
theorem chunksOf900Go_congr : ∀ (fuel1 fuel2 : Nat) (l : List String),
    l.length ≤ fuel1 → l.length ≤ fuel2 →
    chunksOf900Go fuel1 l = chunksOf900Go fuel2 l := by
  intro fuel1
  induction fuel1 with
  | zero =>
    intro fuel2 l h1 _
    have : l = [] := List.eq_nil_of_length_eq_zero (Nat.le_zero.mp h1)
    subst this
    cases fuel2 <;> rfl
  | succ f1 ih =>
    intro fuel2 l h1 h2
    cases l with
    | nil => cases fuel2 <;> rfl
    | cons x xs =>
      cases fuel2 with
      | zero => simp at h2
      | succ f2 =>
        simp only [chunksOf900Go]
        congr 1
        simp only [List.length_cons] at h1 h2
        apply ih <;> simp only [List.length_drop, List.length_cons] <;> omega

/-- Unfolding equation of chunksOf900 on a nonempty list. -/
theorem chunksOf900_cons (l : List String) (h : l ≠ []) :
    chunksOf900 l = l.take 900 :: chunksOf900 (l.drop 900) := by
  cases l with
  | nil => exact absurd rfl h
  | cons x xs =>
    show chunksOf900Go (xs.length + 1) (x :: xs) = _
    simp only [chunksOf900Go]
    congr 1
    apply chunksOf900Go_congr
    · simp only [List.length_drop, List.length_cons]
      omega
    · exact Nat.le_refl _

/-- Unfolding equation of chunksOf900 on the empty list. -/
theorem chunksOf900_nil : chunksOf900 [] = [] := rfl

/-- A database state with one configured company and no postings yet. -/
def fixtureEmptySt : DBState :=
  { companies := [{ id := 1, name := "Bosch", careers_url := "https://b",
                    adapter := "bosch", adapter_status := "OK",
                    error_message := none, last_successful_fetch := none }],
    jobs := [], evals := [], nextJobId := 1, nextEvalId := 1, now := 3 }

/-- First of two fetched postings of one cycle. -/
def fixtureRaw1 : RawJobPosting :=
  { external_id := "r1", title := "VP Operations", location := "Berlin",
    description := "p&l", url := "https://b/1", partial_description := false,
    department := none }

/-- Second of two fetched postings of one cycle. -/
def fixtureRaw2 : RawJobPosting :=
  { external_id := "r2", title := "Director IT", location := "Munich",
    description := "modernization", url := "https://b/2",
    partial_description := false, department := none }

/-- C1 fails on the code: upsert_job_posting commits after every row even
though the runner wraps the loop in a transaction scope, so the durable state
after the first of two upserts is neither the pre-cycle state nor the state of
the completed cycle.  A failure while upserting the second posting therefore
leaves the first posting's insert committed, contradicting all-or-nothing
atomicity of a cycle. -/
theorem upsert_commit_points_break_atomicity :
    committedAfterUpserts 1 [fixtureRaw1, fixtureRaw2] 1 fixtureEmptySt ≠
      fixtureEmptySt ∧
    committedAfterUpserts 1 [fixtureRaw1, fixtureRaw2] 1 fixtureEmptySt ≠
      (refresh_company_db 1 [fixtureRaw1, fixtureRaw2] fixtureEmptySt).state := by
  decide

/-- Conclusion of the C2 counter-theorem: the posting's external id is in the
fetched set, yet the cycle's mark-missing step leaves it deactivated. -/
def seenBeyond900DeactivatedP (company_id : Nat) (c1 c2 : List String)
    (j : JobRow) (st : DBState) : Prop :=
  j.external_id ∈ c1 ++ c2 ∧
  (mark_missing_jobs_inactive company_id (c1 ++ c2) st).jobs =
    [{ j with active := false }]

/-- C2 fails on the code for fetched sets larger than 900 ids: the chunked
UPDATE runs one NOT IN per 900-id chunk, so each chunk deactivates every
active posting absent from that single chunk; a posting whose external id sits
in a later chunk is deactivated by the first chunk's UPDATE even though it was
fetched.  Here the seen list c1 ++ c2 splits into chunks c1 (900 ids) and c2,
and the single stored posting, whose external id is in c2, ends inactive. -/
theorem mark_missing_deactivates_seen_id (company_id : Nat)
    (c1 c2 : List String) (j : JobRow) (st : DBState)
    (hlen : c1.length = 900) (hc2 : c2 ≠ []) (hc2len : c2.length ≤ 900)
    (hjobs : st.jobs = [j]) (hcid : j.company_id = company_id)
    (hact : j.active = true) (hmem : j.external_id ∈ c2)
    (hnot : j.external_id ∉ c1) :
    seenBeyond900DeactivatedP company_id c1 c2 j st := by
  have hne : c1 ++ c2 ≠ [] := by
    intro h0
    have : c1 = [] := (List.append_eq_nil.mp h0).1
    rw [this] at hlen
    simp at hlen
  have htake : (c1 ++ c2).take 900 = c1 := by
    rw [← hlen]; exact List.take_left c1 c2
  have hdrop : (c1 ++ c2).drop 900 = c2 := by
    rw [← hlen]; exact List.drop_left c1 c2
  have hchunks : chunksOf900 (c1 ++ c2) = [c1, c2] := by
    rw [chunksOf900_cons _ hne, htake, hdrop, chunksOf900_cons _ hc2,
        List.take_of_length_le hc2len, List.drop_eq_nil_of_le hc2len, chunksOf900_nil]
  constructor
  · exact List.mem_append.mpr (Or.inr hmem)
  · have hseenNe : ¬(c1 ++ c2).isEmpty = true := by
      simpa [List.isEmpty_iff] using hne
    simp only [mark_missing_jobs_inactive, hseenNe, if_false, hchunks, List.foldl_cons,
      List.foldl_nil, hjobs]
    simp [deactivateNotInChunk, hcid, hact, hnot]

/-- A stored active posting whose external id will appear at position 900 of
the fetched set. -/
def fixtureChunkRow : JobRow :=
  { id := 10, external_id := "b", company_id := 2, title := "T",
    location := "L", department := none, description := "D", url := "U",
    partial_description := false, active := true, date_found := 1,
    last_seen_at := 1, user_review_status := "NEW" }

/-- A database state holding only fixtureChunkRow. -/
def fixtureChunkSt : DBState :=
  { companies := [], jobs := [fixtureChunkRow], evals := [],
    nextJobId := 11, nextEvalId := 1, now := 20 }

/-- The first 900 fetched external ids, all distinct from the stored one. -/
def fixtureChunkIds : List String := (List.range 900).map (fun i => "a" ++ toString i)

set_option maxRecDepth 100000 in
/-- Closed witness for the C2 counter-theorem: a fetched set of 901 ids whose
901st id is the stored posting's external id. -/
theorem mark_missing_deactivates_seen_id_witness :
    fixtureChunkIds.length = 900 ∧
    fixtureChunkRow.external_id ∉ fixtureChunkIds ∧
    seenBeyond900DeactivatedP 2 fixtureChunkIds ["b"] fixtureChunkRow fixtureChunkSt :=
  ⟨by decide, by decide,
   mark_missing_deactivates_seen_id 2 fixtureChunkIds ["b"] fixtureChunkRow
     fixtureChunkSt (by decide) (by decide) (by decide) (by decide) (by decide)
     (by decide) (by decide) (by decide)⟩

/-- The collection fold of refresh_all, written as one map over the configured
companies plus one flattening of the collected touched ids. -/
theorem refresh_all_eq_map (lookup : String → Option Nat)
    (companies : List CompanyConfig) (outcome : String → CompanyOutcome) :
    refresh_all lookup companies outcome =
      { company_results :=
          companies.map (fun c => collectCompany lookup c.name (outcome c.name)),
        touched_job_ids :=
          companies.flatMap
            (fun c => (collectCompany lookup c.name (outcome c.name)).touched_job_ids) } := by
  have hgen : ∀ (cs : List CompanyConfig) (acc : RefreshResult),
      cs.foldl (fun acc c =>
        let r := collectCompany lookup c.name (outcome c.name)
        { company_results := acc.company_results ++ [r],
          touched_job_ids := acc.touched_job_ids ++ r.touched_job_ids }) acc =
      { company_results := acc.company_results ++
          cs.map (fun c => collectCompany lookup c.name (outcome c.name)),
        touched_job_ids := acc.touched_job_ids ++
          cs.flatMap (fun c => (collectCompany lookup c.name (outcome c.name)).touched_job_ids) } := by
    intro cs
    induction cs with
    | nil => intro acc; simp
    | cons c cs ih =>
      intro acc
      simp only [List.foldl_cons, ih, List.map_cons, List.flatMap_cons, List.append_assoc,
        List.singleton_append]
  have h := hgen companies { company_results := [], touched_job_ids := [] }
  simpa [refresh_all] using h

/-- The error record refresh_all builds for one failed company. -/
def errorResult (lookup : String → Option Nat) (name msg : String) : CompanyResult :=
  { company_id := lookup name, company_name := name, status := "ERROR",
    error_message := some msg, new_count := 0, updated_count := 0,
    touched_job_ids := [] }

/-- C7: a timeout or unhandled error while refreshing one source never
prevents the other sources from completing: refresh_all returns exactly one
result per configured source; a timed-out source contributes the ERROR record
with message Timeout, zero counts and no touched ids; a source whose refresh
raised contributes the ERROR record carrying the exception message; and every
successful source's result and touched ids still reach the RefreshResult. -/
theorem refresh_all_isolates_failures (lookup : String → Option Nat)
    (companies : List CompanyConfig) (outcome : String → CompanyOutcome) :
    (refresh_all lookup companies outcome).company_results.length =
      companies.length ∧
    (∀ c ∈ companies, outcome c.name = CompanyOutcome.timeout →
      errorResult lookup c.name "Timeout" ∈
        (refresh_all lookup companies outcome).company_results) ∧
    (∀ c ∈ companies, ∀ m, outcome c.name = CompanyOutcome.failed m →
      errorResult lookup c.name m ∈
        (refresh_all lookup companies outcome).company_results) ∧
    (∀ c ∈ companies, ∀ r, outcome c.name = CompanyOutcome.ok r →
      r ∈ (refresh_all lookup companies outcome).company_results ∧
      ∀ t ∈ r.touched_job_ids,
        t ∈ (refresh_all lookup companies outcome).touched_job_ids) := by
  rw [refresh_all_eq_map]
  refine ⟨by simp, ?_, ?_, ?_⟩
  · intro c hc hto
    refine List.mem_map.mpr ⟨c, hc, ?_⟩
    simp [collectCompany, hto, errorResult]
  · intro c hc m hm
    refine List.mem_map.mpr ⟨c, hc, ?_⟩
    simp [collectCompany, hm, errorResult]
  · intro c hc r hok
    constructor
    · refine List.mem_map.mpr ⟨c, hc, ?_⟩
      simp [collectCompany, hok]
    · intro t ht
      refine List.mem_flatMap.mpr ⟨c, hc, ?_⟩
      simp [collectCompany, hok, ht]

/-- Three configured companies for the isolation witness. -/
def fixtureCompanies : List CompanyConfig :=
  [{ name := "Siemens", careers_url := "https://s", adapter := "siemens" },
   { name := "Bosch", careers_url := "https://b", adapter := "bosch" },
   { name := "ABB", careers_url := "https://a", adapter := "abb" }]

/-- A successful result for the third company of the isolation witness. -/
def fixtureOkResult : CompanyResult :=
  { company_id := some 3, company_name := "ABB", status := "OK",
    error_message := none, new_count := 2, updated_count := 1,
    touched_job_ids := [4, 5, 6] }

/-- Outcomes of one cycle: Siemens times out, Bosch raises, ABB succeeds. -/
def fixtureOutcome (name : String) : CompanyOutcome :=
  if name = "Siemens" then CompanyOutcome.timeout
  else if name = "Bosch" then CompanyOutcome.failed "boom"
  else CompanyOutcome.ok fixtureOkResult

/-- Name-to-id lookup of the isolation witness. -/
def fixtureLookup (name : String) : Option Nat :=
  if name = "Siemens" then some 1 else if name = "Bosch" then some 2 else some 3

/-- Closed witness for the C7 theorem: one timeout, one exception and one
success in a three-company cycle. -/
theorem refresh_all_isolates_failures_witness :
    (refresh_all fixtureLookup fixtureCompanies fixtureOutcome).company_results.length = 3 ∧
    errorResult fixtureLookup "Siemens" "Timeout" ∈
      (refresh_all fixtureLookup fixtureCompanies fixtureOutcome).company_results ∧
    errorResult fixtureLookup "Bosch" "boom" ∈
      (refresh_all fixtureLookup fixtureCompanies fixtureOutcome).company_results ∧
    fixtureOkResult ∈
      (refresh_all fixtureLookup fixtureCompanies fixtureOutcome).company_results ∧
    (6 : Nat) ∈ (refresh_all fixtureLookup fixtureCompanies fixtureOutcome).touched_job_ids := by
  have h := refresh_all_isolates_failures fixtureLookup fixtureCompanies fixtureOutcome
  refine ⟨h.1, ?_, ?_, ?_, ?_⟩
  · exact h.2.1 fixtureCompanies[0] (by decide) (by decide)
  · exact h.2.2.1 fixtureCompanies[1] (by decide) "boom" (by decide)
  · exact (h.2.2.2 fixtureCompanies[2] (by decide) fixtureOkResult (by decide)).1
  · exact (h.2.2.2 fixtureCompanies[2] (by decide) fixtureOkResult (by decide)).2 6 (by decide)

/-- Conclusion of the C9 claim for a one-posting fetch that matches the stored
content: counts are updated=1 and new=0, the posting survives with only a
refreshed last-seen timestamp, and the produced evaluation content is
unchanged. -/
def idempotentP (weights : ScoringWeights) (geocfg : GeographyConfig)
    (company_id : Nat) (raw : RawJobPosting) (st : DBState) (j : JobRow)
    (company_name : String) : Prop :=
  (refresh_company_db company_id [raw] st).new_count = 0 ∧
  (refresh_company_db company_id [raw] st).updated_count = 1 ∧
  (refresh_company_db company_id [raw] st).touched = [j.id] ∧
  findPosting company_id raw.external_id (refresh_company_db company_id [raw] st).state =
    some { j with last_seen_at := st.now } ∧
  score_job weights geocfg (jobContentOf { j with last_seen_at := st.now } company_name) =
    score_job weights geocfg (jobContentOf j company_name)

/-- C9: re-fetching a posting whose stored content matches the fetched content
is idempotent: the cycle counts it as updated and not new, the stored row is
unchanged except for the refreshed last-seen timestamp (review status and
active flag included), and scoring the re-read row produces an evaluation
identical to scoring the previous row, so only the evaluation's database
timestamp and rowid can differ. -/
theorem reconcile_idempotent (weights : ScoringWeights) (geocfg : GeographyConfig)
    (company_id : Nat) (raw : RawJobPosting) (st : DBState) (j : JobRow)
    (company_name : String)
    (hfind : findPosting company_id raw.external_id st = some j)
    (hactive : j.active = true)
    (ht : j.title = raw.title) (hl : j.location = raw.location)
    (hdep : j.department = raw.department) (hdesc : j.description = raw.description)
    (hurl : j.url = raw.url) (hpart : j.partial_description = raw.partial_description) :
    idempotentP weights geocfg company_id raw st j company_name := by
  unfold idempotentP
  have hpred := List.find?_some hfind
  simp only [Bool.and_eq_true, beq_iff_eq] at hpred
  obtain ⟨hjcid, hjext⟩ := hpred
  have hfj : updatedRow raw st.now j = { j with last_seen_at := st.now } := by
    simp only [updatedRow]
    rw [← ht, ← hl, ← hdep, ← hdesc, ← hurl, ← hpart, ← hactive]
  have hloop : upsertLoop company_id [raw] st =
      { touched := [j.id], new_count := 0, updated_count := 1,
        seen := [raw.external_id],
        state := { st with jobs := st.jobs.map (fun r =>
          if r.id = j.id then updatedRow raw st.now r else r) } } := by
    simp only [upsertLoop, List.foldl_cons, List.foldl_nil, upsert_job_posting, hfind]
    rfl
  have hch : chunksOf900 [raw.external_id] = [[raw.external_id]] := by
    rw [chunksOf900_cons _ (by simp)]
    simp [chunksOf900_nil]
  simp only [refresh_company_db, hloop, mark_missing_jobs_inactive]
  refine ⟨trivial, trivial, trivial, ?_, rfl⟩
  simp only [List.isEmpty_cons, Bool.false_eq_true, if_false, hch,
    List.foldl_cons, List.foldl_nil]
  simp only [findPosting, deactivateNotInChunk, List.map_map]
  rw [List.find?_map]
  have hpres : ∀ r : JobRow,
      (((fun r : JobRow =>
          if r.company_id = company_id ∧ r.external_id ∉ [raw.external_id] ∧ r.active = true
          then { r with active := false } else r) ∘
        (fun r : JobRow => if r.id = j.id then updatedRow raw st.now r else r)) r).company_id
        = r.company_id ∧
      (((fun r : JobRow =>
          if r.company_id = company_id ∧ r.external_id ∉ [raw.external_id] ∧ r.active = true
          then { r with active := false } else r) ∘
        (fun r : JobRow => if r.id = j.id then updatedRow raw st.now r else r)) r).external_id
        = r.external_id := by
    intro r
    constructor <;>
      (simp only [Function.comp] <;> split_ifs <;> simp [updatedRow])
  have hcomp : ((fun r : JobRow =>
        r.company_id == company_id && r.external_id == raw.external_id) ∘
      ((fun r : JobRow =>
          if r.company_id = company_id ∧ r.external_id ∉ [raw.external_id] ∧ r.active = true
          then { r with active := false } else r) ∘
        (fun r : JobRow => if r.id = j.id then updatedRow raw st.now r else r))) =
      (fun r : JobRow => r.company_id == company_id && r.external_id == raw.external_id) := by
    funext r
    have h1 := (hpres r).1
    have h2 := (hpres r).2
    simp only [Function.comp] at h1 h2 ⊢
    rw [h1, h2]
  have hfind2 : st.jobs.find?
      (fun r : JobRow => r.company_id == company_id && r.external_id == raw.external_id) =
      some j := hfind
  rw [hcomp, hfind2]
  have hcond : ¬(({ j with last_seen_at := st.now } : JobRow).company_id = company_id ∧
      ({ j with last_seen_at := st.now } : JobRow).external_id ∉ [raw.external_id] ∧
      ({ j with last_seen_at := st.now } : JobRow).active = true) := by
    intro hcon
    exact hcon.2.1 (by simp [hjext])
  have hgfj : ((fun r : JobRow =>
        if r.company_id = company_id ∧ r.external_id ∉ [raw.external_id] ∧ r.active = true
        then { r with active := false } else r) ∘
      (fun r : JobRow => if r.id = j.id then updatedRow raw st.now r else r)) j =
      { j with last_seen_at := st.now } := by
    simp only [Function.comp, eq_self_iff_true, if_true]
    rw [hfj, if_neg hcond]
  simp only [Option.map_some', hgfj]

/-- A fetched posting identical to the stored fixtureIdemRow content. -/
def fixtureIdemRaw : RawJobPosting :=
  { external_id := "e9", title := "VP Sales", location := "Hamburg",
    description := "p&l and modernization", url := "https://i/9",
    partial_description := false, department := none }

/-- A stored posting whose content equals fixtureIdemRaw, reviewed by the user. -/
def fixtureIdemRow : JobRow :=
  { id := 21, external_id := "e9", company_id := 3, title := "VP Sales",
    location := "Hamburg", department := none,
    description := "p&l and modernization", url := "https://i/9",
    partial_description := false, active := true, date_found := 2,
    last_seen_at := 2, user_review_status := "IGNORED" }

/-- A database state holding only fixtureIdemRow. -/
def fixtureIdemSt : DBState :=
  { companies := [], jobs := [fixtureIdemRow], evals := [], nextJobId := 22,
    nextEvalId := 1, now := 8 }

/-- An empty geography configuration for the idempotency witness. -/
def fixtureIdemGeoCfg : GeographyConfig := { preferred := [], banned := [] }

/-- Closed witness for the C9 theorem: one re-fetch of an identical posting. -/
theorem reconcile_idempotent_witness :
    findPosting 3 fixtureIdemRaw.external_id fixtureIdemSt = some fixtureIdemRow ∧
    fixtureIdemRow.active = true ∧
    idempotentP defaultWeights fixtureIdemGeoCfg 3 fixtureIdemRaw fixtureIdemSt
      fixtureIdemRow "ACME" :=
  ⟨by decide, by decide,
   reconcile_idempotent defaultWeights fixtureIdemGeoCfg 3 fixtureIdemRaw
     fixtureIdemSt fixtureIdemRow "ACME" (by decide) (by decide) (by decide)
     (by decide) (by decide) (by decide) (by decide) (by decide)⟩

end JobMatcher
